import Mathlib

/-
  Verification development for the Document-Summarizer repository.

  The shallow embedding below models the client-side code of the
  repository (frontend/index.html with its inline scripts js/api.js and
  js/ui-controller.js, js/main.js, js/theme-switcher.js).  JavaScript
  numbers that the claims touch are modelled as Nat or Rat, strings as
  Lean String, absent optional arguments as Option.none, and DOM / fetch
  effects as explicit state records.  The backend selection arithmetic
  (Sentence Selector) is not present in the sources and is modelled from
  the specification where a claim needs it.
-/

namespace DocSummarizer

/-- A JSON value as it appears in the request bodies that the client
builds (only strings and numbers occur there). -/
inductive Json where
  | str : String → Json
  | num : ℚ → Json
  deriving DecidableEq, Repr

/-- A browser File object, restricted to the attributes the client
inspects: its name and its size in bytes. -/
structure JsFile where
  name : String
  size : ℕ
  deriving DecidableEq, Repr

/-! ## UI option lists (index.html)

The model-type select offers exactly ensemble / textrank / tfidf, the
language select offers exactly the five languages, and the summary-ratio
slider is an integer range input with min 10, max 50, default 30. -/

def modelTypeOptions : List String := ["ensemble", "textrank", "tfidf"]

def languageOptions : List String :=
  ["english", "spanish", "french", "german", "italian"]

def ratioSliderMin : ℕ := 10

def ratioSliderMax : ℕ := 50

/-- The values currently held by the three option controls of the form
(model-type select, summary-ratio slider, language select). -/
structure FormState where
  modelTypeValue : String
  summaryRatioValue : ℕ
  languageValue : String
  deriving DecidableEq, Repr

/-- Options record returned by UIController.getSummarizationOptions:
the select values pass through unchanged and the slider value is parsed
as an integer and divided by 100. -/
structure SummarizationOptions where
  modelType : String
  ratio : ℚ
  language : String
  deriving DecidableEq, Repr

/-- UIController.getSummarizationOptions. -/
def getSummarizationOptions (st : FormState) : SummarizationOptions :=
  { modelType := st.modelTypeValue
  , ratio := (st.summaryRatioValue : ℚ) / 100
  , language := st.languageValue }

/-! ## ApiService (js/api.js) -/

/-- The JSON body that ApiService.summarizeText posts to /summarize,
as an ordered field list.  Each optional parameter defaults (ensemble,
0.3, english) exactly when the caller omits it, mirroring the JS default
parameter values. -/
def summarizeTextBody (text : String) (modelType : Option String)
    (ratio : Option ℚ) (language : Option String) : List (String × Json) :=
  [ ("text", Json.str text)
  , ("model_type", Json.str (modelType.getD "ensemble"))
  , ("ratio", Json.num (ratio.getD (3 / 10)))
  , ("language", Json.str (language.getD "english")) ]

/-- A value appended to the multipart FormData of
ApiService.summarizeFile. -/
inductive FormValue where
  | file : JsFile → FormValue
  | str : String → FormValue
  | num : ℚ → FormValue
  deriving DecidableEq, Repr

/-- The FormData that ApiService.summarizeFile posts to /summarize/file,
with the same defaulting of omitted optional parameters. -/
def summarizeFileFormData (f : JsFile) (modelType : Option String)
    (ratio : Option ℚ) (language : Option String) :
    List (String × FormValue) :=
  [ ("file", FormValue.file f)
  , ("model_type", FormValue.str (modelType.getD "ensemble"))
  , ("ratio", FormValue.num (ratio.getD (3 / 10)))
  , ("language", FormValue.str (language.getD "english")) ]

/-- The successful response record consumed by the client
(UIController.displayResults reads exactly these five fields). -/
structure SummaryResult where
  summary : String
  original_length : ℕ
  summary_length : ℕ
  compression_ratio : ℚ
  processing_time : ℚ
  deriving DecidableEq, Repr

/-- An HTTP response as the client observes it: the ok flag, the status
code, and (when ok) the parsed JSON body. -/
structure HttpResponse where
  ok : Bool
  status : ℕ
  body : SummaryResult
  deriving DecidableEq, Repr

/-- The outcome of the fetch in ApiService.summarizeText /
summarizeFile: on a non-ok response the method throws
`new Error("API error: " + status)`; otherwise it resolves to the parsed
body. -/
def apiFetchResult (resp : HttpResponse) : Except String SummaryResult :=
  if resp.ok then Except.ok resp.body
  else Except.error ("API error: " ++ toString resp.status)

/-! ## UIController input handling -/

/-- Which input tab is active (exactly one pane is shown at a time). -/
inductive Tab where
  | textTab
  | fileTab
  deriving DecidableEq, Repr

/-- Characters removed by JavaScript String.prototype.trim (the
WhiteSpace and LineTerminator sets; a representative ASCII/Unicode
subset). -/
def jsWhitespace (c : Char) : Bool :=
  c = ' ' || c = '\t' || c = '\n' || c = '\r' ||
  c = '\x0b' || c = '\x0c' || c = ' ' || c = ' ' ||
  c = ' ' || c = '﻿'

/-- JavaScript String.prototype.trim: strip jsWhitespace from both
ends. -/
def jsTrim (s : String) : String :=
  String.mk (((s.data.dropWhile jsWhitespace).reverse.dropWhile
    jsWhitespace).reverse)

/-- UI state relevant to input collection: active tab, current textarea
content, and the stored uploaded file. -/
structure UIState where
  activeTab : Tab
  inputTextValue : String
  uploadedFile : Option JsFile
  deriving DecidableEq, Repr

/-- UIController.getInputText: the trimmed textarea value when the text
pane is visible, otherwise null. -/
def getInputText (st : UIState) : Option String :=
  match st.activeTab with
  | Tab.textTab => some (jsTrim st.inputTextValue)
  | Tab.fileTab => none

/-- UIController.getUploadedFile: the stored file when the file pane is
visible, otherwise null. -/
def getUploadedFile (st : UIState) : Option JsFile :=
  match st.activeTab with
  | Tab.textTab => none
  | Tab.fileTab => st.uploadedFile

/-- JavaScript truthiness of the getInputText result: null and the
empty string are falsy. -/
def strFalsy : Option String → Bool
  | none => true
  | some s => s = ""

/-- UIController.validateInput: fails (with an alert) exactly when both
the text and the file inputs are falsy. -/
def validateInput (st : UIState) : Bool :=
  !(strFalsy (getInputText st) && (getUploadedFile st).isNone)

/-- The request App.handleSummarize would issue from a given UI and
form state: none when validation fails or when neither input is truthy,
otherwise the text request (text wins over file, as in the if/else if
chain). -/
inductive SummarizeRequest where
  | textReq : String → SummarizationOptions → SummarizeRequest
  | fileReq : JsFile → SummarizationOptions → SummarizeRequest
  deriving DecidableEq, Repr

def handleSummarizeRequest (st : UIState) (form : FormState) :
    Option SummarizeRequest :=
  if validateInput st then
    match getInputText st with
    | some t =>
      if t = "" then
        match getUploadedFile st with
        | some f => some (SummarizeRequest.fileReq f
            (getSummarizationOptions form))
        | none => none
      else some (SummarizeRequest.textReq t (getSummarizationOptions form))
    | none =>
      match getUploadedFile st with
      | some f => some (SummarizeRequest.fileReq f
          (getSummarizationOptions form))
      | none => none
  else none

/-- Observable page state after App.handleSummarize finishes: whether
the loading overlay is visible, the alert text shown by showError (if
any), the result handed to displayResults (if any), and how many fetch
calls were made. -/
structure AppView where
  loadingVisible : Bool
  errorAlert : Option String
  resultsShown : Option SummaryResult
  fetchCalls : ℕ
  deriving DecidableEq, Repr

/-- One run of App.handleSummarize, with `resp` the response the single
fetch would produce.  Validation failure returns before showLoading;
a thrown API error reaches the catch block, which hides the loading
overlay and calls showError (an `Error: `-prefixed alert); a success
hides the overlay and displays the result. -/
def runHandleSummarize (st : UIState) (form : FormState)
    (resp : HttpResponse) : AppView :=
  if validateInput st then
    match handleSummarizeRequest st form with
    | some _ =>
      match apiFetchResult resp with
      | Except.ok r =>
        { loadingVisible := false, errorAlert := none,
          resultsShown := some r, fetchCalls := 1 }
      | Except.error msg =>
        { loadingVisible := false, errorAlert := some ("Error: " ++ msg),
          resultsShown := none, fetchCalls := 1 }
    | none =>
      { loadingVisible := false, errorAlert := none,
        resultsShown := none, fetchCalls := 0 }
  else
    { loadingVisible := false, errorAlert := none,
      resultsShown := none, fetchCalls := 0 }

/-! ## UIController.handleFileSelection -/

def maxFileSize : ℕ := 10 * 1024 * 1024

def validFileTypes : List String := [".txt", ".pdf", ".docx", ".html", ".md"]

/-- The suffix of the character list starting at its LAST dot, or none
when no dot occurs. -/
def suffixFromLastDot : List Char → Option (List Char)
  | [] => none
  | c :: cs =>
    match suffixFromLastDot cs with
    | some e => some e
    | none => if c = '.' then some (c :: cs) else none

/-- `name.substring(name.lastIndexOf('.'))`: from the last dot to the
end; when there is no dot, lastIndexOf yields -1 and substring(-1)
returns the whole string. -/
def jsFileExt (name : String) : String :=
  match suffixFromLastDot name.data with
  | some e => String.mk e
  | none => name

/-- String.prototype.toLowerCase restricted to the per-character fold
the extension check needs. -/
def toLowerCase (s : String) : String := String.mk (s.data.map Char.toLower)

/-- Result of UIController.handleFileSelection: whether the file was
accepted and the uploadedFile field afterwards. -/
structure FileSelectResult where
  accepted : Bool
  uploadedFile : Option JsFile
  deriving DecidableEq, Repr

/-- UIController.handleFileSelection: reject (alert and early return,
leaving uploadedFile untouched) when the size exceeds 10 MB, then when
the lower-cased extension is not in the valid list; otherwise store the
file. -/
def handleFileSelection (current : Option JsFile) (f : JsFile) :
    FileSelectResult :=
  if f.size > maxFileSize then
    { accepted := false, uploadedFile := current }
  else if toLowerCase (jsFileExt f.name) ∈ validFileTypes then
    { accepted := true, uploadedFile := some f }
  else
    { accepted := false, uploadedFile := current }

/-! ## UIController.displayResults -/

/-- Zero-pad a digit string on the left to length d
(fraction rendering for toFixed). -/
def padLeftZeros (s : String) (d : ℕ) : String :=
  String.mk (List.replicate (d - s.length) '0' ++ s.data)

/-- Number.prototype.toFixed on rationals: round to d decimal places
and render with exactly d fraction digits. -/
def formatFixed (x : ℚ) (d : ℕ) : String :=
  let m : ℤ := round (x * (10 : ℚ) ^ d)
  let sign := if m < 0 then "-" else ""
  let a := m.natAbs
  if d = 0 then sign ++ toString a
  else sign ++ toString (a / 10 ^ d) ++ "." ++
    padLeftZeros (toString (a % 10 ^ d)) d

/-- The rendered results section after UIController.displayResults. -/
structure ResultsView where
  summaryText : String
  originalLengthText : String
  summaryLengthText : String
  compressionRatioText : String
  processingTimeText : String
  resultsVisible : Bool
  deriving DecidableEq, Repr

/-- UIController.displayResults: writes all five response fields into
the results section and unhides it. -/
def displayResults (r : SummaryResult) : ResultsView :=
  { summaryText := r.summary
  , originalLengthText := toString r.original_length ++ " words"
  , summaryLengthText := toString r.summary_length ++ " words"
  , compressionRatioText := formatFixed (r.compression_ratio * 100) 1 ++ "%"
  , processingTimeText := formatFixed r.processing_time 2 ++ "s"
  , resultsVisible := true }

/-! ## ThemeSwitcher (js/theme-switcher.js) -/

/-- Theme-relevant document state: the dark class on html and on body,
the inline background color on html, and the localStorage preference. -/
structure ThemeState where
  htmlDark : Bool
  bodyDark : Bool
  htmlBackgroundColor : String
  storedTheme : Option String
  deriving DecidableEq, Repr

/-- ThemeSwitcher.applyTheme. -/
def applyTheme (st : ThemeState) (theme : String) : ThemeState :=
  if theme = "dark" then
    { st with
      htmlDark := true
      bodyDark := true
      htmlBackgroundColor := "#1a202c" }
  else
    { st with
      htmlDark := false
      bodyDark := false
      htmlBackgroundColor := "" }

/-- ThemeSwitcher.toggleTheme: read the dark class from html, apply the
opposite theme, then persist the now-applied theme to localStorage. -/
def toggleTheme (st : ThemeState) : ThemeState :=
  let isDark := st.htmlDark
  let st1 := applyTheme st (if isDark then "light" else "dark")
  let current := if st1.htmlDark then "dark" else "light"
  { st1 with storedTheme := some current }

/-! ## Sentence Selector target count -/

/-- Modelled from the spec: the backend Sentence Selector / Assembler is
not among the sources; per §4.7 the target count is
`k = max(1, round(ratio × n))`, with `k` forced to 1 when the document
has a single sentence. -/
def selectCount (ratio : ℚ) (n : ℕ) : ℕ :=
  if n = 1 then 1 else max 1 (round (ratio * (n : ℚ))).toNat

/-! ## Claims -/

/-- Claim C1: every summarization request the client sends to /summarize
from the UI controls is a JSON record with exactly the fields text,
model_type, ratio, language (in that order), where model_type comes from
the model-type select (so lies in {ensemble, textrank, tfidf}) and
language from the language select (so lies in
{english, spanish, french, german, italian}). -/
theorem summarize_request_shape (st : FormState) (text : String)
    (hm : st.modelTypeValue ∈ modelTypeOptions)
    (hl : st.languageValue ∈ languageOptions) :
    summarizeTextBody text (some (getSummarizationOptions st).modelType)
        (some (getSummarizationOptions st).ratio)
        (some (getSummarizationOptions st).language) =
      [ ("text", Json.str text)
      , ("model_type", Json.str st.modelTypeValue)
      , ("ratio", Json.num ((st.summaryRatioValue : ℚ) / 100))
      , ("language", Json.str st.languageValue) ] ∧
    st.modelTypeValue ∈ modelTypeOptions ∧
    st.languageValue ∈ languageOptions :=
  ⟨rfl, hm, hl⟩

/-- Witness for C1 at the form state (textrank, 30, french). -/
theorem summarize_request_shape_witness :
    summarizeTextBody "hello"
        (some (getSummarizationOptions ⟨"textrank", 30, "french"⟩).modelType)
        (some (getSummarizationOptions ⟨"textrank", 30, "french"⟩).ratio)
        (some (getSummarizationOptions ⟨"textrank", 30, "french"⟩).language) =
      [ ("text", Json.str "hello")
      , ("model_type", Json.str "textrank")
      , ("ratio", Json.num ((30 : ℚ) / 100))
      , ("language", Json.str "french") ] ∧
    "textrank" ∈ modelTypeOptions ∧ "french" ∈ languageOptions :=
  summarize_request_shape ⟨"textrank", 30, "french"⟩ "hello"
    (by decide) (by decide)

/-- Claim C2: for every slider position v with 10 ≤ v ≤ 50, the ratio
built by getSummarizationOptions equals v / 100 and lies in
[0.10, 0.50]. -/
theorem slider_ratio_in_bound (st : FormState)
    (h1 : ratioSliderMin ≤ st.summaryRatioValue)
    (h2 : st.summaryRatioValue ≤ ratioSliderMax) :
    (getSummarizationOptions st).ratio = (st.summaryRatioValue : ℚ) / 100 ∧
    1 / 10 ≤ (getSummarizationOptions st).ratio ∧
    (getSummarizationOptions st).ratio ≤ 1 / 2 := by
  simp only [ratioSliderMin] at h1
  simp only [ratioSliderMax] at h2
  have h1q : (10 : ℚ) ≤ (st.summaryRatioValue : ℚ) := by exact_mod_cast h1
  have h2q : (st.summaryRatioValue : ℚ) ≤ 50 := by exact_mod_cast h2
  refine ⟨rfl, ?_, ?_⟩ <;> simp only [getSummarizationOptions] <;> linarith

/-- Witness for C2 at the default slider position 30. -/
theorem slider_ratio_in_bound_witness :
    (getSummarizationOptions ⟨"ensemble", 30, "english"⟩).ratio =
      ((30 : ℕ) : ℚ) / 100 ∧
    1 / 10 ≤ (getSummarizationOptions ⟨"ensemble", 30, "english"⟩).ratio ∧
    (getSummarizationOptions ⟨"ensemble", 30, "english"⟩).ratio ≤ 1 / 2 :=
  slider_ratio_in_bound ⟨"ensemble", 30, "english"⟩ (by decide) (by decide)

/-- Claim C3 (spec-modelled selector): for every valid ratio r and
sentence count n ≥ 2 the selected count is k = max(1, round(r·n)) with
1 ≤ k ≤ n, and for n = 1 the count is 1 regardless of the ratio. -/
theorem selectCount_in_range (r : ℚ) (n : ℕ)
    (hr1 : 1 / 10 ≤ r) (hr2 : r ≤ 1 / 2) (hn : 2 ≤ n) :
    selectCount r n = max 1 (round (r * (n : ℚ))).toNat ∧
    1 ≤ selectCount r n ∧ selectCount r n ≤ n ∧
    ∀ r2 : ℚ, selectCount r2 1 = 1 := by
  have hn1 : n ≠ 1 := by omega
  have hnq : (2 : ℚ) ≤ (n : ℚ) := by exact_mod_cast hn
  have hhalf : ((round (r * (n : ℚ)) : ℤ) : ℚ) ≤ r * (n : ℚ) + 1 / 2 :=
    round_le_add_half (r * (n : ℚ))
  have hmul : r * (n : ℚ) ≤ (1 / 2) * (n : ℚ) :=
    mul_le_mul_of_nonneg_right hr2 (by linarith)
  have hcast : ((round (r * (n : ℚ)) : ℤ) : ℚ) ≤ ((n : ℤ) : ℚ) := by
    push_cast
    linarith
  have hle : round (r * (n : ℚ)) ≤ (n : ℤ) := by exact_mod_cast hcast
  have heq : selectCount r n = max 1 (round (r * (n : ℚ))).toNat := by
    simp [selectCount, hn1]
  refine ⟨heq, ?_, ?_, ?_⟩
  · rw [heq]; exact Nat.le_max_left 1 _
  · rw [heq]
    exact max_le (by omega) (Int.toNat_le.mpr hle)
  · intro r2; simp [selectCount]

/-- Witness for C3 at r = 3/10, n = 3. -/
theorem selectCount_in_range_witness :
    selectCount (3 / 10) 3 = max 1 (round ((3 / 10 : ℚ) * (3 : ℕ))).toNat ∧
    1 ≤ selectCount (3 / 10) 3 ∧ selectCount (3 / 10) 3 ≤ 3 ∧
    ∀ r2 : ℚ, selectCount r2 1 = 1 :=
  selectCount_in_range (3 / 10) 3 (by norm_num) (by norm_num) (by norm_num)

/-- Claim C4: when the trimmed text is empty and no file is stored,
validateInput fails and App.handleSummarize issues no request. -/
theorem empty_input_rejected (st : UIState) (form : FormState)
    (ht : jsTrim st.inputTextValue = "") (hf : st.uploadedFile = none) :
    validateInput st = false ∧ handleSummarizeRequest st form = none := by
  have hv : validateInput st = false := by
    cases htab : st.activeTab <;>
      simp [validateInput, getInputText, getUploadedFile, strFalsy, htab,
        ht, hf]
  exact ⟨hv, by simp [handleSummarizeRequest, hv]⟩

/-- Witness for C4 at a whitespace-only textarea and no stored file. -/
theorem empty_input_rejected_witness :
    validateInput ⟨Tab.textTab, "  ", none⟩ = false ∧
    handleSummarizeRequest ⟨Tab.textTab, "  ", none⟩
      ⟨"ensemble", 30, "english"⟩ = none :=
  empty_input_rejected ⟨Tab.textTab, "  ", none⟩ ⟨"ensemble", 30, "english"⟩
    (by decide) rfl

/-- Claim C5: when the HTTP response is not ok, the API layer throws a
structured error with a human-readable message, the handler surfaces it
via showError, the loading overlay is hidden, the results section is not
updated, and exactly one fetch was made (no retry). -/
theorem failed_request_surfaced (st : UIState) (form : FormState)
    (resp : HttpResponse) (req : SummarizeRequest)
    (hreq : handleSummarizeRequest st form = some req)
    (hok : resp.ok = false) :
    apiFetchResult resp =
      Except.error ("API error: " ++ toString resp.status) ∧
    runHandleSummarize st form resp =
      { loadingVisible := false
        errorAlert := some ("Error: " ++ ("API error: " ++ toString resp.status))
        resultsShown := none
        fetchCalls := 1 } := by
  have hv : validateInput st = true := by
    cases hvv : validateInput st
    · simp [handleSummarizeRequest, hvv] at hreq
    · rfl
  have hfetch : apiFetchResult resp =
      Except.error ("API error: " ++ toString resp.status) := by
    simp [apiFetchResult, hok]
  refine ⟨hfetch, ?_⟩
  simp [runHandleSummarize, hv, hreq, hfetch]

/-- Witness for C5 at a concrete failing response (status 500). -/
theorem failed_request_surfaced_witness :
    apiFetchResult ⟨false, 500, ⟨"", 0, 0, 0, 0⟩⟩ =
      Except.error ("API error: " ++ toString (500 : ℕ)) ∧
    runHandleSummarize ⟨Tab.textTab, "hello", none⟩
        ⟨"ensemble", 30, "english"⟩ ⟨false, 500, ⟨"", 0, 0, 0, 0⟩⟩ =
      { loadingVisible := false
        errorAlert := some ("Error: " ++ ("API error: " ++ toString (500 : ℕ)))
        resultsShown := none
        fetchCalls := 1 } :=
  failed_request_surfaced ⟨Tab.textTab, "hello", none⟩
    ⟨"ensemble", 30, "english"⟩ ⟨false, 500, ⟨"", 0, 0, 0, 0⟩⟩
    (SummarizeRequest.textReq "hello"
      (getSummarizationOptions ⟨"ensemble", 30, "english"⟩))
    rfl rfl

/-- Claim C6: a selected file larger than 10 MB is rejected:
handleFileSelection does not accept it and leaves the stored uploaded
file unchanged. -/
theorem oversized_file_rejected (current : Option JsFile) (f : JsFile)
    (h : f.size > maxFileSize) :
    handleFileSelection current f =
      { accepted := false, uploadedFile := current } := by
  simp [handleFileSelection, h]

/-- Witness for C6 at a 10 MB + 1 byte file named a.txt. -/
theorem oversized_file_rejected_witness :
    handleFileSelection none ⟨"a.txt", 10485761⟩ =
      { accepted := false, uploadedFile := none } :=
  oversized_file_rejected none ⟨"a.txt", 10485761⟩ (by decide)

/-- Claim C7 counterexample: the file a.txt of 10 MB + 1 bytes has a
valid extension but is still rejected, so acceptance is not equivalent
to extension validity. -/
theorem file_ext_iff_counterexample :
    ¬ (((handleFileSelection none ⟨"a.txt", 10485761⟩).accepted = true) ↔
      toLowerCase (jsFileExt "a.txt") ∈ validFileTypes) := by
  decide

/-- Claim C7 (amended): a selected file within the 10 MB bound is
accepted exactly when its name's final extension, lower-cased, is one of
.txt, .pdf, .docx, .html, .md; with any other extension the file is not
stored. -/
theorem file_ext_accepted_iff (current : Option JsFile) (f : JsFile)
    (hsize : f.size ≤ maxFileSize) :
    ((handleFileSelection current f).accepted = true ↔
      toLowerCase (jsFileExt f.name) ∈ validFileTypes) ∧
    (toLowerCase (jsFileExt f.name) ∉ validFileTypes →
      (handleFileSelection current f).uploadedFile = current) := by
  have hns : ¬ f.size > maxFileSize := by omega
  by_cases hm : toLowerCase (jsFileExt f.name) ∈ validFileTypes <;>
    simp [handleFileSelection, hns, hm]

/-- Witness for C7 at a small file named b.TXT (upper-case extension,
accepted case-insensitively). -/
theorem file_ext_accepted_iff_witness :
    ((handleFileSelection none ⟨"b.TXT", 5⟩).accepted = true ↔
      toLowerCase (jsFileExt "b.TXT") ∈ validFileTypes) ∧
    (toLowerCase (jsFileExt "b.TXT") ∉ validFileTypes →
      (handleFileSelection none ⟨"b.TXT", 5⟩).uploadedFile = none) :=
  file_ext_accepted_iff none ⟨"b.TXT", 5⟩ (by decide)

/-- Claim C8: every successful result consumed by the client carries the
five fields summary, original_length, summary_length, compression_ratio,
processing_time, and displayResults renders each of them and unhides the
results section. -/
theorem displayResults_renders_all_fields (r : SummaryResult) :
    (displayResults r).summaryText = r.summary ∧
    (displayResults r).originalLengthText =
      toString r.original_length ++ " words" ∧
    (displayResults r).summaryLengthText =
      toString r.summary_length ++ " words" ∧
    (displayResults r).compressionRatioText =
      formatFixed (r.compression_ratio * 100) 1 ++ "%" ∧
    (displayResults r).processingTimeText =
      formatFixed r.processing_time 2 ++ "s" ∧
    (displayResults r).resultsVisible = true :=
  ⟨rfl, rfl, rfl, rfl, rfl, rfl⟩

/-- Claim C9 counterexample: from the inconsistent starting state where
only the html element has the dark class, toggling twice does not
restore the body's class, so the involution fails for that starting
state. -/
theorem toggleTheme_involution_counterexample :
    ¬ ((toggleTheme (toggleTheme ⟨true, false, "", none⟩)).bodyDark =
      (⟨true, false, "", none⟩ : ThemeState).bodyDark) := by
  decide

/-- Claim C9 (amended): for every starting state in which the html and
body dark classes agree, toggling the theme twice restores both classes;
moreover after every toggle the saved preference equals the theme
applied to the document (dark exactly when the dark classes, which then
agree, are present). -/
theorem toggleTheme_involution (st : ThemeState)
    (h : st.htmlDark = st.bodyDark) :
    (toggleTheme (toggleTheme st)).htmlDark = st.htmlDark ∧
    (toggleTheme (toggleTheme st)).bodyDark = st.bodyDark ∧
    ∀ s : ThemeState,
      (toggleTheme s).storedTheme =
        some (if (toggleTheme s).htmlDark then "dark" else "light") ∧
      (toggleTheme s).htmlDark = (toggleTheme s).bodyDark := by
  obtain ⟨h1, b1, bg, sto⟩ := st
  simp only at h
  subst h
  refine ⟨?_, ?_, ?_⟩
  · cases h1 <;> rfl
  · cases h1 <;> rfl
  · intro s
    obtain ⟨s1, sb, sbg, ssto⟩ := s
    cases s1 <;> exact ⟨rfl, rfl⟩

/-- Witness for C9 at the consistent dark starting state. -/
theorem toggleTheme_involution_witness :
    (toggleTheme (toggleTheme ⟨true, true, "#1a202c", none⟩)).htmlDark =
      (⟨true, true, "#1a202c", none⟩ : ThemeState).htmlDark ∧
    (toggleTheme (toggleTheme ⟨true, true, "#1a202c", none⟩)).bodyDark =
      (⟨true, true, "#1a202c", none⟩ : ThemeState).bodyDark ∧
    ∀ s : ThemeState,
      (toggleTheme s).storedTheme =
        some (if (toggleTheme s).htmlDark then "dark" else "light") ∧
      (toggleTheme s).htmlDark = (toggleTheme s).bodyDark :=
  toggleTheme_involution ⟨true, true, "#1a202c", none⟩ rfl

/-- Claim C10: with all optional arguments omitted, summarizeText and
summarizeFile build requests with model_type ensemble, ratio 0.3,
language english; explicitly passed arguments are used verbatim, and some
explicit choice yields a different request than the defaults. -/
theorem api_defaults_apply_when_absent :
    (∀ t : String, summarizeTextBody t none none none =
      [ ("text", Json.str t)
      , ("model_type", Json.str "ensemble")
      , ("ratio", Json.num (3 / 10))
      , ("language", Json.str "english") ]) ∧
    (∀ (t mt : String) (r : ℚ) (l : String),
      summarizeTextBody t (some mt) (some r) (some l) =
      [ ("text", Json.str t)
      , ("model_type", Json.str mt)
      , ("ratio", Json.num r)
      , ("language", Json.str l) ]) ∧
    (∀ f : JsFile, summarizeFileFormData f none none none =
      [ ("file", FormValue.file f)
      , ("model_type", FormValue.str "ensemble")
      , ("ratio", FormValue.num (3 / 10))
      , ("language", FormValue.str "english") ]) ∧
    (∀ (f : JsFile) (mt : String) (r : ℚ) (l : String),
      summarizeFileFormData f (some mt) (some r) (some l) =
      [ ("file", FormValue.file f)
      , ("model_type", FormValue.str mt)
      , ("ratio", FormValue.num r)
      , ("language", FormValue.str l) ]) ∧
    summarizeTextBody "t" (some "textrank") (some (1 / 2)) (some "french") ≠
      summarizeTextBody "t" none none none := by
  refine ⟨fun t => rfl, fun t mt r l => rfl, fun f => rfl,
    fun f mt r l => rfl, ?_⟩
  intro hcontra
  simp [summarizeTextBody] at hcontra

end DocSummarizer
